import Mathlib

/-!
Verification of the BrainPrint-Cerebellum core: a shallow embedding of
src/brainprint/asymmetry.py and src/brainprint/surfaces.py, with theorems
about the asymmetry scorer and the surface extraction pipeline.

Numeric spectrum entries are modelled by an explicit value type `Val`
distinguishing NaN, the two infinities and finite values, since the scorer
only inspects NaN-ness and finiteness of entries and treats the distance
computation as an external black box.
-/

namespace BrainPrint

/-- A spectrum entry: NaN, positive or negative infinity, or a finite value
(the finite payload is abstracted to an integer, since the code never
performs arithmetic on entries itself). -/
inductive Val where
  | nan : Val
  | inf : Val
  | ninf : Val
  | fin : Int → Val
deriving DecidableEq, Repr

/-- Embeds numpy.isnan on a single entry: true exactly on NaN. -/
def Val.isnan : Val → Bool
  | Val.nan => true
  | _ => false

/-- True exactly on finite values (numpy.isfinite). -/
def Val.isFiniteVal : Val → Bool
  | Val.fin _ => true
  | _ => false

/-- Embeds numpy.isnan(xs).any(): some entry of the list is NaN. -/
def hasNaN (xs : List Val) : Bool :=
  xs.any Val.isnan

/-- Some entry of the list is non-finite (NaN or an infinity). -/
def hasNonFinite (xs : List Val) : Bool :=
  xs.any (fun v => !v.isFiniteVal)

/-- The subcortical pair catalogue structures_left_right of
compute_asymmetry (asymmetry.py lines 41-57). -/
def structures_left_right : List (String × String) :=
  [("Left-Striatum", "Right-Striatum"),
   ("Left-Lateral-Ventricle", "Right-Lateral-Ventricle"),
   ("Left-Cerebellum-White-Matter", "Right-Cerebellum-White-Matter"),
   ("Left-Cerebellum-Cortex", "Right-Cerebellum-Cortex"),
   ("Left-Thalamus-Proper", "Right-Thalamus-Proper"),
   ("Left-Caudate", "Right-Caudate"),
   ("Left-Putamen", "Right-Putamen"),
   ("Left-Pallidum", "Right-Pallidum"),
   ("Left-Hippocampus", "Right-Hippocampus"),
   ("Left-Amygdala", "Right-Amygdala"),
   ("Left-Accumbens-area", "Right-Accumbens-area"),
   ("Left-VentralDC", "Right-VentralDC")]

/-- The cerebellar pair catalogue structures_left_right_cerebellum of
compute_asymmetry (asymmetry.py lines 59-72); the two commented-out pairs
of the source are omitted, as in the source. -/
def structures_left_right_cerebellum : List (String × String) :=
  [("Cbm_Left_I_IV", "Cbm_Right_I_IV"),
   ("Cbm_Left_V", "Cbm_Right_V"),
   ("Cbm_Left_VI", "Cbm_Right_VI"),
   ("Cbm_Left_CrusI", "Cbm_Right_CrusI"),
   ("Cbm_Left_CrusII", "Cbm_Right_CrusII"),
   ("Cbm_Left_VIIb", "Cbm_Right_VIIb"),
   ("Cbm_Left_VIIIa", "Cbm_Right_VIIIa"),
   ("Cbm_Left_VIIIb", "Cbm_Right_VIIIb"),
   ("Cbm_Left_IX", "Cbm_Right_IX"),
   ("Cbm_Left_X", "Cbm_Right_X")]

/-- The cortical pair catalogue cortex_2d_left_right of compute_asymmetry
(asymmetry.py lines 74-77). -/
def cortex_2d_left_right : List (String × String) :=
  [("lh-white-2d", "rh-white-2d"),
   ("lh-pial-2d", "rh-pial-2d")]

/-- The pair list actually iterated by compute_asymmetry: subcortical
pairs, then cortical pairs unless skip_cortex, then cerebellar pairs
unless skip_cerebellum (asymmetry.py lines 79-84). -/
def selectedPairs (skip_cortex skip_cerebellum : Bool) : List (String × String) :=
  structures_left_right
    ++ (if skip_cortex then [] else cortex_2d_left_right)
    ++ (if skip_cerebellum then [] else structures_left_right_cerebellum)

/-- The dictionary key written for a pair (asymmetry.py line 93). -/
def pairKey (p : String × String) : String :=
  p.1 ++ "_" ++ p.2

/-- The diagnostic message printed for a pair whose trimmed spectra
contain NaN (asymmetry.py lines 95-101); Python merges the two adjacent
string literals before .format is applied, so both labels are
substituted. -/
def nanMessage (left_label right_label : String) : String :=
  "NaNs found for " ++ left_label ++ " or " ++ right_label ++
    ", skipping asymmetry computation..."

/-- The body of the loop of compute_asymmetry for one pair: look up both
spectra (a missing key is a lookup error naming the key, as Python
KeyError, left side first), trim the first two entries of each, and record
NaN if either trimmed side has a NaN, otherwise the external distance.
Returns the (key, value) entry and the list of printed messages. -/
def scorePair (compute_distance : List Val → List Val → String → Val)
    (dist : String) (eigenvalues : String → Option (List Val))
    (p : String × String) : Except String ((String × Val) × List String) :=
  match eigenvalues p.1 with
  | none => Except.error p.1
  | some ls =>
    match eigenvalues p.2 with
    | none => Except.error p.2
    | some rs =>
      let left_eigenvalues := ls.drop 2
      let right_eigenvalues := rs.drop 2
      let has_nan := hasNaN left_eigenvalues || hasNaN right_eigenvalues
      let key := pairKey p
      if has_nan then
        Except.ok ((key, Val.nan), [nanMessage p.1 p.2])
      else
        Except.ok
          ((key, compute_distance left_eigenvalues right_eigenvalues dist), [])

/-- The loop of compute_asymmetry over a pair list, accumulating the
distances dictionary (as an insertion-ordered association list; all keys
are distinct, proved below) and the printed diagnostics. -/
def scoreLoop (compute_distance : List Val → List Val → String → Val)
    (dist : String) (eigenvalues : String → Option (List Val)) :
    List (String × String) → Except String (List (String × Val) × List String)
  | [] => Except.ok ([], [])
  | p :: ps =>
    match scorePair compute_distance dist eigenvalues p with
    | Except.error e => Except.error e
    | Except.ok (entry, msgs) =>
      match scoreLoop compute_distance dist eigenvalues ps with
      | Except.error e => Except.error e
      | Except.ok (entries, msgs2) => Except.ok (entry :: entries, msgs ++ msgs2)

/-- compute_asymmetry (asymmetry.py lines 10-109): the external
shapedna.compute_distance is a parameter; the returned value is the
distances dictionary together with the printed diagnostic messages, or a
lookup error naming a missing structure. -/
def compute_asymmetry (compute_distance : List Val → List Val → String → Val)
    (eigenvalues : String → Option (List Val)) (dist : String)
    (skip_cortex skip_cerebellum : Bool) :
    Except String (List (String × Val) × List String) :=
  scoreLoop compute_distance dist eigenvalues
    (selectedPairs skip_cortex skip_cerebellum)

/-- The trimmed spectrum of a structure: everything after the first two
entries of its spectrum (empty when the structure is absent; used only
under coverage hypotheses). -/
def trimmed (eigenvalues : String → Option (List Val)) (name : String) :
    List Val :=
  ((eigenvalues name).getD []).drop 2

/-- A pair is flagged when either trimmed side contains a NaN. -/
def pairFlagged (eigenvalues : String → Option (List Val))
    (p : String × String) : Bool :=
  hasNaN (trimmed eigenvalues p.1) || hasNaN (trimmed eigenvalues p.2)

/-- The value compute_asymmetry records for a covered pair: NaN when
flagged, otherwise the external distance of the trimmed spectra. -/
def pairValue (compute_distance : List Val → List Val → String → Val)
    (dist : String) (eigenvalues : String → Option (List Val))
    (p : String × String) : Val :=
  if pairFlagged eigenvalues p then Val.nan
  else compute_distance (trimmed eigenvalues p.1) (trimmed eigenvalues p.2) dist

/-! ## Surface extraction (surfaces.py)

External shell commands are modelled by their command strings; the
environment is a pair of oracles: runner answers whether a command exits
successfully, isFile answers Path.is_file. A computation returns the list
of commands actually handed to the shell, in order, together with either
the produced value or the command that failed. -/

/-- An external-effect computation: the shell commands issued, in order,
and either a result or the failing command. -/
abbrev Exec (α : Type) : Type := List String × Except String α

/-- Sequencing of external-effect computations: on failure the remaining
steps are not issued. -/
def execBind {α β : Type} (x : Exec α) (f : α → Exec β) : Exec β :=
  match x with
  | (t, Except.error e) => (t, Except.error e)
  | (t, Except.ok a) =>
    match f a with
    | (t2, r) => (t ++ t2, r)

/-- A pure value issues no commands. -/
def execPure {α : Type} (a : α) : Exec α := ([], Except.ok a)

/-- Modelled from the spec: run_shell_command comes from the utils module,
which is not among the sources; per the spec, each external command
invocation is blocking and any command returning non-zero aborts with a
fatal error identifying the stage, so it is modelled as issuing the
command and failing with that command when the runner reports failure. -/
def run_shell_command (runner : String → Bool) (command : String) : Exec Unit :=
  ([command], if runner command then Except.ok () else Except.error command)

/-- The mri_binarize command string (surfaces.py lines 25-28 / 95-98). -/
def binarizeCommand (source : String) (indices : List String) (dst : String) :
    String :=
  "mri_binarize --i " ++ source ++ " --match " ++ String.intercalate " " indices
    ++ " --o " ++ dst

/-- The mri_pretess command string (surfaces.py lines 34-42 / 104-112);
label_value is "1" and source and destination are both the mask. -/
def pretessCommand (mask norm_path : String) : String :=
  "mri_pretess " ++ mask ++ " 1 " ++ norm_path ++ " " ++ mask

/-- The mri_mc marching-cubes command string (surfaces.py lines 48-51 /
118-121) at label value 1. -/
def mcCommand (mask surface_path : String) : String :=
  "mri_mc " ++ mask ++ " 1 " ++ surface_path

/-- The mris_convert command string (surfaces.py lines 59-62 / 129-132). -/
def convertCommand (source dst : String) : String :=
  "mris_convert " ++ source ++ " " ++ dst

/-- create_aseg_surface (surfaces.py lines 68-135). Paths are strings
joined with "/" as pathlib does; the per-call uuid is the parameter uid;
norm-file existence is answered by the isFile oracle on the exact path the
source tests. -/
def create_aseg_surface (runner isFile : String → Bool)
    (subject_dir destination uid : String) (indices : List String) :
    Exec String :=
  let aseg_path := subject_dir ++ "/mri/aseg.mgz"
  let norm_path := subject_dir ++ "/mri/norm.mgz"
  let temp_name := "temp/aseg." ++ uid
  let indices_mask := destination ++ "/" ++ temp_name ++ ".mgz"
  execBind (run_shell_command runner
      (binarizeCommand aseg_path indices indices_mask)) (fun _ =>
  execBind (if isFile norm_path then
      run_shell_command runner (pretessCommand indices_mask norm_path)
    else execPure ()) (fun _ =>
  let surface_path := destination ++ "/" ++ temp_name ++ ".surf"
  execBind (run_shell_command runner (mcCommand indices_mask surface_path))
    (fun _ =>
  let conversion_destination :=
    destination ++ "/surfaces/aseg.final." ++ String.intercalate "_" indices
      ++ ".vtk"
  execBind (run_shell_command runner
      (convertCommand surface_path conversion_destination)) (fun _ =>
  execPure conversion_destination))))

/-- create_cereb_surface (surfaces.py lines 13-65): identical pipeline but
reading mri/cerebellum.CerebNet.nii.gz and writing under the cereb
temp/final names. -/
def create_cereb_surface (runner isFile : String → Bool)
    (subject_dir destination uid : String) (indices : List String) :
    Exec String :=
  let cerebseg_path := subject_dir ++ "/mri/cerebellum.CerebNet.nii.gz"
  let norm_path := subject_dir ++ "/mri/norm.mgz"
  let temp_name := "temp/cereb." ++ uid
  let indices_mask := destination ++ "/" ++ temp_name ++ ".mgz"
  execBind (run_shell_command runner
      (binarizeCommand cerebseg_path indices indices_mask)) (fun _ =>
  execBind (if isFile norm_path then
      run_shell_command runner (pretessCommand indices_mask norm_path)
    else execPure ()) (fun _ =>
  let surface_path := destination ++ "/" ++ temp_name ++ ".surf"
  execBind (run_shell_command runner (mcCommand indices_mask surface_path))
    (fun _ =>
  let conversion_destination :=
    destination ++ "/surfaces/cereb.final." ++ String.intercalate "_" indices
      ++ ".vtk"
  execBind (run_shell_command runner
      (convertCommand surface_path conversion_destination)) (fun _ =>
  execPure conversion_destination))))

/-- The aseg label catalogue (surfaces.py lines 194-225). -/
def aseg_labels : List (String × List String) :=
  [("CorpusCallosum", ["251", "252", "253", "254", "255"]),
   ("Cerebellum", ["7", "8", "16", "46", "47"]),
   ("Ventricles", ["4", "5", "14", "24", "31", "43", "44", "63"]),
   ("3rd-Ventricle", ["14", "24"]),
   ("4th-Ventricle", ["15"]),
   ("Brain-Stem", ["16"]),
   ("Left-Striatum", ["11", "12", "26"]),
   ("Left-Lateral-Ventricle", ["4", "5", "31"]),
   ("Left-Cerebellum-White-Matter", ["7"]),
   ("Left-Cerebellum-Cortex", ["8"]),
   ("Left-Thalamus-Proper", ["10"]),
   ("Left-Caudate", ["11"]),
   ("Left-Putamen", ["12"]),
   ("Left-Pallidum", ["13"]),
   ("Left-Hippocampus", ["17"]),
   ("Left-Amygdala", ["18"]),
   ("Left-Accumbens-area", ["26"]),
   ("Left-VentralDC", ["28"]),
   ("Right-Striatum", ["50", "51", "58"]),
   ("Right-Lateral-Ventricle", ["43", "44", "63"]),
   ("Right-Cerebellum-White-Matter", ["46"]),
   ("Right-Cerebellum-Cortex", ["47"]),
   ("Right-Thalamus-Proper", ["49"]),
   ("Right-Caudate", ["50"]),
   ("Right-Putamen", ["51"]),
   ("Right-Pallidum", ["52"]),
   ("Right-Hippocampus", ["53"]),
   ("Right-Amygdala", ["54"]),
   ("Right-Accumbens-area", ["58"]),
   ("Right-VentralDC", ["60"])]

/-- The cerebellar label catalogue (surfaces.py lines 142-173); the four
commented-out entries of the source are omitted, as in the source. -/
def cereb_labels : List (String × List String) :=
  [("Cbm_Left_I_IV", ["601"]),
   ("Cbm_Right_I_IV", ["602"]),
   ("Cbm_Left_V", ["603"]),
   ("Cbm_Right_V", ["604"]),
   ("Cbm_Left_VI", ["605"]),
   ("Cbm_Vermis_VI", ["606"]),
   ("Cbm_Right_VI", ["607"]),
   ("Cbm_Left_CrusI", ["608"]),
   ("Cbm_Right_CrusI", ["610"]),
   ("Cbm_Left_CrusII", ["611"]),
   ("Cbm_Right_CrusII", ["613"]),
   ("Cbm_Left_VIIb", ["614"]),
   ("Cbm_Right_VIIb", ["616"]),
   ("Cbm_Left_VIIIa", ["617"]),
   ("Cbm_Right_VIIIa", ["619"]),
   ("Cbm_Left_VIIIb", ["620"]),
   ("Cbm_Right_VIIIb", ["622"]),
   ("Cbm_Left_IX", ["623"]),
   ("Cbm_Vermis_IX", ["624"]),
   ("Cbm_Right_IX", ["625"]),
   ("Cbm_Left_X", ["626"]),
   ("Cbm_Vermis_X", ["627"]),
   ("Cbm_Right_X", ["628"]),
   ("Cbm_Vermis_VII", ["630"]),
   ("Cbm_Vermis_VIII", ["631"]),
   ("Cbm_Vermis", ["631", "630", "627", "624", "606"])]

/-- The cortical label catalogue (surfaces.py lines 233-238): structure
label to native surface file name. -/
def cortical_labels : List (String × String) :=
  [("lh-white-2d", "lh.white"),
   ("rh-white-2d", "rh.white"),
   ("lh-pial-2d", "lh.pial"),
   ("rh-pial-2d", "rh.pial")]

/-- The dict comprehension of a batch builder: apply the per-structure
builder to every catalogue entry in order; an exception stops the
comprehension, so later entries issue no commands. -/
def batchLoop (build : String × List String → Exec String) :
    List (String × List String) → Exec (List (String × String))
  | [] => execPure []
  | e :: es =>
    execBind (build e) (fun p =>
    execBind (batchLoop build es) (fun ps =>
    execPure ((e.1, p) :: ps)))

/-- create_aseg_surfaces (surfaces.py lines 182-229); uids gives the fresh
uuid used for each structure's call. -/
def create_aseg_surfaces (runner isFile : String → Bool)
    (subject_dir destination : String) (uids : String → String) :
    Exec (List (String × String)) :=
  batchLoop
    (fun e => create_aseg_surface runner isFile subject_dir destination
      (uids e.1) e.2)
    aseg_labels

/-- create_cereb_surfaces (surfaces.py lines 140-178). -/
def create_cereb_surfaces (runner isFile : String → Bool)
    (subject_dir destination : String) (uids : String → String) :
    Exec (List (String × String)) :=
  batchLoop
    (fun e => create_cereb_surface runner isFile subject_dir destination
      (uids e.1) e.2)
    cereb_labels

/-- create_cortical_surfaces (surfaces.py lines 232-245): surf_to_vtk is a
library call, not a shell command, converting subject_dir/surf/name to
destination/surfaces/name.vtk and returning the destination. -/
def create_cortical_surfaces (_subject_dir destination : String) :
    List (String × String) :=
  cortical_labels.map (fun e =>
    (e.1, destination ++ "/surfaces/" ++ e.2 ++ ".vtk"))

/-- create_surfaces (surfaces.py lines 248-257): aseg batch first, then
the cerebellar batch unless skip_cerebellum, then the cortical batch
unless skip_cortex; merged with dict.update (append; names are
disjoint). -/
def create_surfaces (runner isFile : String → Bool)
    (subject_dir destination : String) (uids : String → String)
    (skip_cortex skip_cerebellum : Bool) : Exec (List (String × String)) :=
  execBind (create_aseg_surfaces runner isFile subject_dir destination uids)
    (fun surfaces =>
  execBind (if skip_cerebellum then execPure [] else
      create_cereb_surfaces runner isFile subject_dir destination uids)
    (fun cereb =>
  execPure ((surfaces ++ cereb) ++
    (if skip_cortex then [] else
      create_cortical_surfaces subject_dir destination))))

/-! ## A decidable substring test, used to state "the message names the
structures" and "no key mentions a vermis structure". -/

/-- The needle is a prefix of the haystack (on character lists). -/
def charsPre : List Char → List Char → Bool
  | [], _ => true
  | _ :: _, [] => false
  | a :: as, b :: bs => a == b && charsPre as bs

/-- The needle occurs contiguously somewhere in the haystack. -/
def charsSub (needle : List Char) : List Char → Bool
  | [] => needle.isEmpty
  | c :: cs => charsPre needle (c :: cs) || charsSub needle cs

/-- The string needle occurs contiguously in the string hay. -/
def strContains (hay needle : String) : Bool :=
  charsSub needle.data hay.data

/-! ## Concrete inputs used to instantiate the theorems. -/

/-- A finite three-entry spectrum. -/
def spectrumFin : List Val := [Val.fin 0, Val.fin 0, Val.fin 1]

/-- A spectra mapping giving every structure the same finite spectrum. -/
def evAllFin : String → Option (List Val) := fun _ => some spectrumFin

/-- The same finite spectra with the first two entries of every spectrum
replaced by different finite values. -/
def evShifted : String → Option (List Val) :=
  fun _ => some [Val.fin 5, Val.fin 6, Val.fin 1]

/-- An external distance function constantly returning the finite value
7, regardless of metric. -/
def distSeven : List Val → List Val → String → Val := fun _ _ _ => Val.fin 7

/-- Finite spectra except that Left-Striatum's third entry is positive
infinity: non-finite but not NaN. -/
def evInfLeft : String → Option (List Val) :=
  fun n => if n = "Left-Striatum" then some [Val.fin 0, Val.fin 0, Val.inf]
    else some spectrumFin

/-- Finite spectra except that Left-Hippocampus's third entry is NaN. -/
def evNaNHip : String → Option (List Val) :=
  fun n => if n = "Left-Hippocampus" then some [Val.fin 0, Val.fin 0, Val.nan]
    else some spectrumFin

/-- Finite spectra except that Left-Striatum has no entry at all. -/
def evMissingStriatum : String → Option (List Val) :=
  fun n => if n = "Left-Striatum" then none else some spectrumFin

/-- Finite spectra except that the aggregate vermis structure has no
entry. -/
def evVermisNone : String → Option (List Val) :=
  fun n => if n = "Cbm_Vermis" then none else some spectrumFin

/-- The result mapping of a subcortical-only run on evNaNHip with the
constant distance 7: the Hippocampus pair is flagged, all others get 7. -/
def resNaNHip : List (String × Val) :=
  (selectedPairs true true).map
    (fun p => (pairKey p, pairValue distSeven "euc" evNaNHip p))

/-- The six vermis structure names of the cerebellar catalogue. -/
def vermisNames : List String :=
  ["Cbm_Vermis_VI", "Cbm_Vermis_VII", "Cbm_Vermis_VIII", "Cbm_Vermis_IX",
   "Cbm_Vermis_X", "Cbm_Vermis"]

/-- The result mapping when every pair is unflagged and the distance
function constantly returns 7. -/
def resultAllSeven (skip_cortex skip_cerebellum : Bool) :
    List (String × Val) :=
  (selectedPairs skip_cortex skip_cerebellum).map
    (fun p => (pairKey p, Val.fin 7))

/-- A runner on which every external command succeeds. -/
def runnerAll : String → Bool := fun _ => true

/-- A file oracle on which every path exists. -/
def isFileAll : String → Bool := fun _ => true

/-- A file oracle on which no path exists. -/
def isFileNone : String → Bool := fun _ => false

/-- A constant uuid supply. -/
def uidsConst : String → String := fun _ => "u"

/-- The binarize command of the first aseg catalogue entry
(CorpusCallosum) for subject "s", destination "d", uuid "u". -/
def asegFailBinCmd : String :=
  binarizeCommand ("s" ++ "/mri/aseg.mgz") ["251", "252", "253", "254", "255"]
    ("d" ++ "/" ++ ("temp/aseg." ++ "u") ++ ".mgz")

/-- A runner failing exactly the CorpusCallosum binarize command. -/
def runnerFailAseg : String → Bool := fun c => !(c == asegFailBinCmd)

/-- The binarize command of the first cerebellar catalogue entry
(Cbm_Left_I_IV) for subject "s", destination "d", uuid "u". -/
def cerebFailBinCmd : String :=
  binarizeCommand ("s" ++ "/mri/cerebellum.CerebNet.nii.gz") ["601"]
    ("d" ++ "/" ++ ("temp/cereb." ++ "u") ++ ".mgz")

/-- A runner failing exactly the Cbm_Left_I_IV binarize command. -/
def runnerFailCereb : String → Bool := fun c => !(c == cerebFailBinCmd)

/-! ## Theorems about the scoring loop -/

theorem scorePair_cov {cd : List Val → List Val → String → Val} {d : String}
    {ev : String → Option (List Val)} {p : String × String}
    {ls rs : List Val} (h1 : ev p.1 = some ls) (h2 : ev p.2 = some rs) :
    scorePair cd d ev p = Except.ok ((pairKey p, pairValue cd d ev p),
      if pairFlagged ev p then [nanMessage p.1 p.2] else []) := by
  unfold scorePair pairValue pairFlagged trimmed
  rw [h1, h2]
  simp only [Option.getD_some]
  by_cases hf : (hasNaN (ls.drop 2) || hasNaN (rs.drop 2)) = true
  · simp [hf]
  · simp [hf]

theorem scoreLoop_cov (cd : List Val → List Val → String → Val) (d : String)
    (ev : String → Option (List Val)) :
    ∀ ps : List (String × String),
      (∀ p ∈ ps, (ev p.1).isSome ∧ (ev p.2).isSome) →
      scoreLoop cd d ev ps = Except.ok
        (ps.map (fun p => (pairKey p, pairValue cd d ev p)),
         (ps.filter (fun p => pairFlagged ev p)).map
           (fun p => nanMessage p.1 p.2)) := by
  intro ps
  induction ps with
  | nil => intro _; rfl
  | cons p ps ih =>
    intro hcov
    obtain ⟨hs1, hs2⟩ := hcov p (List.mem_cons_self p ps)
    obtain ⟨ls, h1⟩ := Option.isSome_iff_exists.mp hs1
    obtain ⟨rs, h2⟩ := Option.isSome_iff_exists.mp hs2
    have htail := ih (fun q hq => hcov q (List.mem_cons_of_mem p hq))
    show scoreLoop cd d ev (p :: ps) = _
    unfold scoreLoop
    rw [scorePair_cov h1 h2, htail]
    by_cases hf : pairFlagged ev p = true
    · simp [hf, List.filter_cons]
    · simp [hf, List.filter_cons]

theorem scorePair_congr {cd : List Val → List Val → String → Val}
    {d : String} {ev ev2 : String → Option (List Val)} {p : String × String}
    (h1 : (ev p.1).map (List.drop 2) = (ev2 p.1).map (List.drop 2))
    (h2 : (ev p.2).map (List.drop 2) = (ev2 p.2).map (List.drop 2)) :
    scorePair cd d ev p = scorePair cd d ev2 p := by
  unfold scorePair
  cases ha : ev p.1 with
  | none =>
    rw [ha] at h1
    cases hb : ev2 p.1 with
    | none => rfl
    | some ls2 => rw [hb] at h1; cases h1
  | some ls =>
    rw [ha] at h1
    cases hb : ev2 p.1 with
    | none => rw [hb] at h1; cases h1
    | some ls2 =>
      rw [hb] at h1
      have hls : ls.drop 2 = ls2.drop 2 := by
        simpa using h1
      cases hc : ev p.2 with
      | none =>
        rw [hc] at h2
        cases hd : ev2 p.2 with
        | none => rfl
        | some rs2 => rw [hd] at h2; cases h2
      | some rs =>
        rw [hc] at h2
        cases hd : ev2 p.2 with
        | none => rw [hd] at h2; cases h2
        | some rs2 =>
          rw [hd] at h2
          have hrs : rs.drop 2 = rs2.drop 2 := by
            simpa using h2
          simp only [hls, hrs]

theorem scoreLoop_congr (cd : List Val → List Val → String → Val)
    (d : String) (ev ev2 : String → Option (List Val)) :
    ∀ ps : List (String × String),
      (∀ p ∈ ps,
        (ev p.1).map (List.drop 2) = (ev2 p.1).map (List.drop 2) ∧
        (ev p.2).map (List.drop 2) = (ev2 p.2).map (List.drop 2)) →
      scoreLoop cd d ev ps = scoreLoop cd d ev2 ps := by
  intro ps
  induction ps with
  | nil => intro _; rfl
  | cons p ps ih =>
    intro hagree
    obtain ⟨h1, h2⟩ := hagree p (List.mem_cons_self p ps)
    have htail := ih (fun q hq => hagree q (List.mem_cons_of_mem p hq))
    show scoreLoop cd d ev (p :: ps) = scoreLoop cd d ev2 (p :: ps)
    unfold scoreLoop
    rw [scorePair_congr h1 h2, htail]

theorem scoreLoop_missing (cd : List Val → List Val → String → Val)
    (d : String) (ev : String → Option (List Val)) :
    ∀ ps : List (String × String),
      (∃ p ∈ ps, ev p.1 = none ∨ ev p.2 = none) →
      ∃ n, (∃ p ∈ ps, (p.1 = n ∨ p.2 = n) ∧ ev n = none) ∧
        scoreLoop cd d ev ps = Except.error n := by
  intro ps
  induction ps with
  | nil => rintro ⟨p, hp, _⟩; cases hp
  | cons p ps ih =>
    intro hmiss
    cases ha : ev p.1 with
    | none =>
      refine ⟨p.1, ⟨p, List.mem_cons_self p ps, Or.inl rfl, ha⟩, ?_⟩
      show scoreLoop cd d ev (p :: ps) = _
      unfold scoreLoop scorePair
      rw [ha]
    | some ls =>
      cases hb : ev p.2 with
      | none =>
        refine ⟨p.2, ⟨p, List.mem_cons_self p ps, Or.inr rfl, hb⟩, ?_⟩
        show scoreLoop cd d ev (p :: ps) = _
        unfold scoreLoop scorePair
        rw [ha, hb]
      | some rs =>
        have htailmiss : ∃ q ∈ ps, ev q.1 = none ∨ ev q.2 = none := by
          obtain ⟨q, hq, hcase⟩ := hmiss
          rcases List.mem_cons.mp hq with hqp | hqs
          · exfalso
            subst hqp
            rcases hcase with hc | hc
            · rw [ha] at hc; cases hc
            · rw [hb] at hc; cases hc
          · exact ⟨q, hqs, hcase⟩
        obtain ⟨n, ⟨q, hq, hqn, hnone⟩, herr⟩ := ih htailmiss
        refine ⟨n, ⟨q, List.mem_cons_of_mem p hq, hqn, hnone⟩, ?_⟩
        show scoreLoop cd d ev (p :: ps) = _
        unfold scoreLoop
        rw [scorePair_cov ha hb, herr]

theorem scoreLoop_ok_isSome (cd : List Val → List Val → String → Val)
    (d : String) (ev : String → Option (List Val)) :
    ∀ ps : List (String × String), ∀ res msgs,
      scoreLoop cd d ev ps = Except.ok (res, msgs) →
      ∀ p ∈ ps, (ev p.1).isSome ∧ (ev p.2).isSome := by
  intro ps
  induction ps with
  | nil => intro res msgs _ p hp; cases hp
  | cons p ps ih =>
    intro res msgs h q hq
    have hhead : (ev p.1).isSome ∧ (ev p.2).isSome := by
      unfold scoreLoop at h
      cases ha : ev p.1 with
      | none =>
        exfalso
        unfold scorePair at h
        rw [ha] at h
        cases h
      | some ls =>
        cases hb : ev p.2 with
        | none =>
          exfalso
          unfold scorePair at h
          rw [ha, hb] at h
          cases h
        | some rs => exact ⟨by simp [ha], by simp [hb]⟩
    rcases List.mem_cons.mp hq with hqp | hqs
    · subst hqp; exact hhead
    · obtain ⟨ls, ha⟩ := Option.isSome_iff_exists.mp hhead.1
      obtain ⟨rs, hb⟩ := Option.isSome_iff_exists.mp hhead.2
      unfold scoreLoop at h
      rw [scorePair_cov ha hb] at h
      cases htail : scoreLoop cd d ev ps with
      | error e => rw [htail] at h; cases h
      | ok rm => exact ih rm.1 rm.2 htail q hqs

/-! ## Substring lemmas -/

theorem charsPre_self_append : ∀ (nd t : List Char),
    charsPre nd (nd ++ t) = true := by
  intro nd
  induction nd with
  | nil => intro t; rfl
  | cons a as ih =>
    intro t
    show (a == a && charsPre as (as ++ t)) = true
    rw [ih t]
    simp

theorem charsSub_of_charsPre : ∀ (nd h : List Char),
    charsPre nd h = true → charsSub nd h = true := by
  intro nd h hp
  cases h with
  | nil =>
    cases nd with
    | nil => rfl
    | cons a as => cases hp
  | cons c cs =>
    show (charsPre nd (c :: cs) || charsSub nd cs) = true
    rw [hp]
    simp

theorem charsSub_append_left : ∀ (pre nd t : List Char),
    charsSub nd t = true → charsSub nd (pre ++ t) = true := by
  intro pre
  induction pre with
  | nil => intro nd t h; exact h
  | cons c cs ih =>
    intro nd t h
    show (charsPre nd (c :: (cs ++ t)) || charsSub nd (cs ++ t)) = true
    rw [ih nd t h]
    simp

theorem charsPre_append_right : ∀ (nd t suf : List Char),
    charsPre nd t = true → charsPre nd (t ++ suf) = true := by
  intro nd
  induction nd with
  | nil => intro t suf _; rfl
  | cons a as ih =>
    intro t suf h
    cases t with
    | nil => cases h
    | cons b bs =>
      simp only [charsPre, Bool.and_eq_true] at h
      obtain ⟨hab, hrest⟩ := h
      show (a == b && charsPre as (bs ++ suf)) = true
      simp only [Bool.and_eq_true]
      exact ⟨hab, ih bs suf hrest⟩

theorem charsSub_nil_needle : ∀ (t : List Char), charsSub [] t = true := by
  intro t
  cases t with
  | nil => rfl
  | cons c cs =>
    show (charsPre [] (c :: cs) || charsSub [] cs) = true
    rfl

theorem charsSub_append_right : ∀ (t nd suf : List Char),
    charsSub nd t = true → charsSub nd (t ++ suf) = true := by
  intro t
  induction t with
  | nil =>
    intro nd suf h
    have hnd : nd = [] := by
      cases nd with
      | nil => rfl
      | cons a as => cases h
    subst hnd
    exact charsSub_nil_needle suf
  | cons c cs ih =>
    intro nd suf h
    have hsplit : charsPre nd (c :: cs) = true ∨ charsSub nd cs = true := by
      have h2 := h
      unfold charsSub at h2
      simpa only [Bool.or_eq_true] using h2
    show (charsPre nd (c :: (cs ++ suf)) || charsSub nd (cs ++ suf)) = true
    rcases hsplit with hp | hs
    · have hp2 := charsPre_append_right nd (c :: cs) suf hp
      rw [List.cons_append] at hp2
      rw [hp2]
      rfl
    · rw [ih nd suf hs]
      simp

theorem strContains_append_left (x h s : String)
    (hc : strContains h s = true) : strContains (x ++ h) s = true := by
  unfold strContains at hc ⊢
  rw [String.data_append]
  exact charsSub_append_left x.data s.data h.data hc

theorem strContains_append_right (x h s : String)
    (hc : strContains h s = true) : strContains (h ++ x) s = true := by
  unfold strContains at hc ⊢
  rw [String.data_append]
  exact charsSub_append_right h.data s.data x.data hc

theorem strContains_self (s : String) : strContains s s = true := by
  unfold strContains
  have := charsPre_self_append s.data []
  rw [List.append_nil] at this
  exact charsSub_of_charsPre _ _ this

/-! ## Surface pipeline lemmas -/

theorem create_aseg_surface_steps (runner isFile : String → Bool)
    (sd dest uid : String) (indices : List String)
    (h : ∀ c, runner c = true) :
    create_aseg_surface runner isFile sd dest uid indices =
      (binarizeCommand (sd ++ "/mri/aseg.mgz") indices
          (dest ++ "/" ++ ("temp/aseg." ++ uid) ++ ".mgz") ::
        ((if isFile (sd ++ "/mri/norm.mgz") then
            [pretessCommand (dest ++ "/" ++ ("temp/aseg." ++ uid) ++ ".mgz")
              (sd ++ "/mri/norm.mgz")]
          else []) ++
         [mcCommand (dest ++ "/" ++ ("temp/aseg." ++ uid) ++ ".mgz")
            (dest ++ "/" ++ ("temp/aseg." ++ uid) ++ ".surf"),
          convertCommand (dest ++ "/" ++ ("temp/aseg." ++ uid) ++ ".surf")
            (dest ++ "/surfaces/aseg.final." ++ String.intercalate "_" indices
              ++ ".vtk")]),
       Except.ok (dest ++ "/surfaces/aseg.final." ++
         String.intercalate "_" indices ++ ".vtk")) := by
  unfold create_aseg_surface
  by_cases hn : isFile (sd ++ "/mri/norm.mgz") = true
  · simp [hn, run_shell_command, execBind, execPure, h]
  · simp only [Bool.not_eq_true] at hn
    simp [hn, run_shell_command, execBind, execPure, h]

theorem create_cereb_surface_steps (runner isFile : String → Bool)
    (sd dest uid : String) (indices : List String)
    (h : ∀ c, runner c = true) :
    create_cereb_surface runner isFile sd dest uid indices =
      (binarizeCommand (sd ++ "/mri/cerebellum.CerebNet.nii.gz") indices
          (dest ++ "/" ++ ("temp/cereb." ++ uid) ++ ".mgz") ::
        ((if isFile (sd ++ "/mri/norm.mgz") then
            [pretessCommand (dest ++ "/" ++ ("temp/cereb." ++ uid) ++ ".mgz")
              (sd ++ "/mri/norm.mgz")]
          else []) ++
         [mcCommand (dest ++ "/" ++ ("temp/cereb." ++ uid) ++ ".mgz")
            (dest ++ "/" ++ ("temp/cereb." ++ uid) ++ ".surf"),
          convertCommand (dest ++ "/" ++ ("temp/cereb." ++ uid) ++ ".surf")
            (dest ++ "/surfaces/cereb.final." ++ String.intercalate "_" indices
              ++ ".vtk")]),
       Except.ok (dest ++ "/surfaces/cereb.final." ++
         String.intercalate "_" indices ++ ".vtk")) := by
  unfold create_cereb_surface
  by_cases hn : isFile (sd ++ "/mri/norm.mgz") = true
  · simp [hn, run_shell_command, execBind, execPure, h]
  · simp only [Bool.not_eq_true] at hn
    simp [hn, run_shell_command, execBind, execPure, h]

theorem create_aseg_surface_binarize_fail (runner isFile : String → Bool)
    (sd dest uid : String) (indices : List String)
    (hfail : runner (binarizeCommand (sd ++ "/mri/aseg.mgz") indices
      (dest ++ "/" ++ ("temp/aseg." ++ uid) ++ ".mgz")) = false) :
    create_aseg_surface runner isFile sd dest uid indices =
      ([binarizeCommand (sd ++ "/mri/aseg.mgz") indices
          (dest ++ "/" ++ ("temp/aseg." ++ uid) ++ ".mgz")],
       Except.error (binarizeCommand (sd ++ "/mri/aseg.mgz") indices
         (dest ++ "/" ++ ("temp/aseg." ++ uid) ++ ".mgz"))) := by
  unfold create_aseg_surface
  simp [run_shell_command, execBind, hfail]

theorem create_cereb_surface_binarize_fail (runner isFile : String → Bool)
    (sd dest uid : String) (indices : List String)
    (hfail : runner (binarizeCommand (sd ++ "/mri/cerebellum.CerebNet.nii.gz")
      indices (dest ++ "/" ++ ("temp/cereb." ++ uid) ++ ".mgz")) = false) :
    create_cereb_surface runner isFile sd dest uid indices =
      ([binarizeCommand (sd ++ "/mri/cerebellum.CerebNet.nii.gz") indices
          (dest ++ "/" ++ ("temp/cereb." ++ uid) ++ ".mgz")],
       Except.error (binarizeCommand (sd ++ "/mri/cerebellum.CerebNet.nii.gz")
         indices (dest ++ "/" ++ ("temp/cereb." ++ uid) ++ ".mgz"))) := by
  unfold create_cereb_surface
  simp [run_shell_command, execBind, hfail]

theorem batchLoop_error (build : String × List String → Exec String) :
    ∀ (cat1 : List (String × List String)) (e : String × List String)
      (cat2 : List (String × List String)) (err : String),
      (∀ x ∈ cat1, ∃ p, (build x).2 = Except.ok p) →
      (build e).2 = Except.error err →
      batchLoop build (cat1 ++ e :: cat2) =
        ((cat1.map (fun x => (build x).1)).flatten ++ (build e).1,
         Except.error err) := by
  intro cat1
  induction cat1 with
  | nil =>
    intro e cat2 err _ herr
    show batchLoop build (e :: cat2) = _
    unfold batchLoop
    rcases hbe : build e with ⟨t, r⟩
    rw [hbe] at herr
    simp only at herr
    subst herr
    simp [execBind, hbe]
  | cons x cat1 ih =>
    intro e cat2 err hok herr
    obtain ⟨p, hp⟩ := hok x (List.mem_cons_self x cat1)
    have htail := ih e cat2 err
      (fun y hy => hok y (List.mem_cons_of_mem x hy)) herr
    show batchLoop build (x :: (cat1 ++ e :: cat2)) = _
    unfold batchLoop
    rcases hbx : build x with ⟨tx, rx⟩
    rw [hbx] at hp
    simp only at hp
    subst hp
    rw [htail]
    simp [execBind, hbx, List.append_assoc]

/-- Any successful run of compute_asymmetry is fully characterized: the
result maps each selected pair, in order, to its key and pairValue, and
the messages are the diagnostics of the flagged pairs in order. -/
theorem compute_ok_eq (cd : List Val → List Val → String → Val)
    (ev : String → Option (List Val)) (d : String) (sc scb : Bool)
    (res : List (String × Val)) (msgs : List String)
    (h : compute_asymmetry cd ev d sc scb = Except.ok (res, msgs)) :
    res = (selectedPairs sc scb).map (fun p => (pairKey p, pairValue cd d ev p))
    ∧ msgs = ((selectedPairs sc scb).filter (fun p => pairFlagged ev p)).map
        (fun p => nanMessage p.1 p.2) := by
  unfold compute_asymmetry at h
  have hcov := scoreLoop_ok_isSome cd d ev (selectedPairs sc scb) res msgs h
  have hch := scoreLoop_cov cd d ev (selectedPairs sc scb) hcov
  rw [hch] at h
  simp only [Except.ok.injEq, Prod.mk.injEq] at h
  exact ⟨h.1.symm, h.2.symm⟩

/-! ## Claim theorems -/

/-- C5: every structure name occurring in the three pair catalogues of
compute_asymmetry is a key of the corresponding surface label catalogue in
surfaces.py: subcortical pair names in aseg_labels, cerebellar pair names
in cereb_labels, cortical pair names in cortical_labels. -/
theorem C5_catalogue_consistency :
    (structures_left_right.all (fun p =>
      (aseg_labels.map Prod.fst).contains p.1 &&
      (aseg_labels.map Prod.fst).contains p.2)) = true ∧
    (structures_left_right_cerebellum.all (fun p =>
      (cereb_labels.map Prod.fst).contains p.1 &&
      (cereb_labels.map Prod.fst).contains p.2)) = true ∧
    (cortex_2d_left_right.all (fun p =>
      (cortical_labels.map Prod.fst).contains p.1 &&
      (cortical_labels.map Prod.fst).contains p.2)) = true := by
  refine ⟨by decide, by decide, by decide⟩

/-- C9: on every successful run the recorded keys are, in order, exactly
the literal concatenations left_name ++ "_" ++ right_name of the selected
pairs, and in particular the Hippocampus pair's key is exactly
"Left-Hippocampus_Right-Hippocampus" and occurs among the keys. -/
theorem C9_key_format (cd : List Val → List Val → String → Val)
    (ev : String → Option (List Val)) (d : String) (sc scb : Bool)
    (res : List (String × Val)) (msgs : List String)
    (h : compute_asymmetry cd ev d sc scb = Except.ok (res, msgs)) :
    res.map Prod.fst = (selectedPairs sc scb).map pairKey ∧
    ((selectedPairs sc scb).all
      (fun p => pairKey p == p.1 ++ "_" ++ p.2)) = true ∧
    pairKey ("Left-Hippocampus", "Right-Hippocampus") =
      "Left-Hippocampus_Right-Hippocampus" ∧
    "Left-Hippocampus_Right-Hippocampus" ∈ res.map Prod.fst := by
  obtain ⟨hres, _⟩ := compute_ok_eq cd ev d sc scb res msgs h
  subst hres
  refine ⟨?_, ?_, rfl, ?_⟩
  · rw [List.map_map]
    rfl
  · cases sc <;> cases scb <;> decide
  · rw [List.map_map]
    show "Left-Hippocampus_Right-Hippocampus" ∈
      (selectedPairs sc scb).map (fun p => pairKey p)
    cases sc <;> cases scb <;> decide

theorem C9_witness :
    (resultAllSeven false false).map Prod.fst =
      (selectedPairs false false).map pairKey ∧
    ((selectedPairs false false).all
      (fun p => pairKey p == p.1 ++ "_" ++ p.2)) = true ∧
    pairKey ("Left-Hippocampus", "Right-Hippocampus") =
      "Left-Hippocampus_Right-Hippocampus" ∧
    "Left-Hippocampus_Right-Hippocampus" ∈
      (resultAllSeven false false).map Prod.fst :=
  C9_key_format distSeven evAllFin "euc" false false
    (resultAllSeven false false) [] (by rfl)

/-- C3: for every spectra mapping covering the selected names and every
flag setting, compute_asymmetry succeeds and returns exactly one entry per
selected pair, in order, with pairwise-distinct keys; the pair count is 12
subcortical plus 2 cortical unless skip_cortex plus 10 cerebellar unless
skip_cerebellum, and no other key appears. -/
theorem C3_complete_mapping (cd : List Val → List Val → String → Val)
    (ev : String → Option (List Val)) (d : String) (sc scb : Bool)
    (hcov : ∀ p ∈ selectedPairs sc scb, (ev p.1).isSome ∧ (ev p.2).isSome) :
    compute_asymmetry cd ev d sc scb = Except.ok
      ((selectedPairs sc scb).map (fun p => (pairKey p, pairValue cd d ev p)),
       ((selectedPairs sc scb).filter (fun p => pairFlagged ev p)).map
         (fun p => nanMessage p.1 p.2)) ∧
    ((selectedPairs sc scb).map pairKey).Nodup ∧
    (selectedPairs sc scb).length =
      12 + (if sc then 0 else 2) + (if scb then 0 else 10) := by
  refine ⟨?_, ?_, ?_⟩
  · unfold compute_asymmetry
    exact scoreLoop_cov cd d ev (selectedPairs sc scb) hcov
  · cases sc <;> cases scb <;> decide
  · cases sc <;> cases scb <;> decide

theorem C3_witness :
    compute_asymmetry distSeven evAllFin "euc" false false = Except.ok
      ((selectedPairs false false).map
        (fun p => (pairKey p, pairValue distSeven "euc" evAllFin p)),
       ((selectedPairs false false).filter
         (fun p => pairFlagged evAllFin p)).map
         (fun p => nanMessage p.1 p.2)) ∧
    ((selectedPairs false false).map pairKey).Nodup ∧
    (selectedPairs false false).length =
      12 + (if false then 0 else 2) + (if false then 0 else 10) :=
  C3_complete_mapping distSeven evAllFin "euc" false false
    (fun _ _ => ⟨rfl, rfl⟩)

/-- C1 (counterexample): on spectra whose Left-Striatum trimmed spectrum
contains positive infinity (non-finite but not NaN) and a distance
function returning the finite scalar 7, compute_asymmetry records 7 for
the Striatum pair, not NaN — refuting the claim that NaN is recorded
whenever a trimmed side contains a non-finite value. -/
theorem C1_counterexample :
    compute_asymmetry distSeven evInfLeft "euc" true true =
      Except.ok (resultAllSeven true true, []) ∧
    hasNonFinite (trimmed evInfLeft "Left-Striatum") = true ∧
    (resultAllSeven true true).head? =
      some ("Left-Striatum_Right-Striatum", Val.fin 7) ∧
    Val.fin 7 ≠ Val.nan := by
  refine ⟨by rfl, by decide, by rfl, by decide⟩

/-- C1 (amended): for every selected pair, compute_asymmetry records NaN
as that pair's distance if and only if the trimmed spectrum of left or of
right contains a NaN value (non-finite values that are not NaN are passed
through to the distance function); otherwise it records the scalar
returned by the external distance function on the two trimmed spectra,
and a flagged pair never aborts processing: whenever the spectra mapping
covers the selected names the run succeeds with one entry per pair. -/
theorem C1_nan_recording (cd : List Val → List Val → String → Val)
    (ev : String → Option (List Val)) (d : String) (sc scb : Bool)
    (hcov : ∀ p ∈ selectedPairs sc scb, (ev p.1).isSome ∧ (ev p.2).isSome) :
    compute_asymmetry cd ev d sc scb = Except.ok
      ((selectedPairs sc scb).map (fun p => (pairKey p, pairValue cd d ev p)),
       ((selectedPairs sc scb).filter (fun p => pairFlagged ev p)).map
         (fun p => nanMessage p.1 p.2)) ∧
    ((selectedPairs sc scb).all (fun p =>
      pairValue cd d ev p ==
        (if hasNaN (trimmed ev p.1) || hasNaN (trimmed ev p.2) then Val.nan
         else cd (trimmed ev p.1) (trimmed ev p.2) d))) = true := by
  constructor
  · unfold compute_asymmetry
    exact scoreLoop_cov cd d ev (selectedPairs sc scb) hcov
  · rw [List.all_eq_true]
    intro p _
    show (pairValue cd d ev p == pairValue cd d ev p) = true
    exact beq_self_eq_true (pairValue cd d ev p)

theorem C1_witness :
    compute_asymmetry distSeven evAllFin "euc" true true = Except.ok
      ((selectedPairs true true).map
        (fun p => (pairKey p, pairValue distSeven "euc" evAllFin p)),
       ((selectedPairs true true).filter
         (fun p => pairFlagged evAllFin p)).map
         (fun p => nanMessage p.1 p.2)) ∧
    ((selectedPairs true true).all (fun p =>
      pairValue distSeven "euc" evAllFin p ==
        (if hasNaN (trimmed evAllFin p.1) || hasNaN (trimmed evAllFin p.2)
         then Val.nan
         else distSeven (trimmed evAllFin p.1) (trimmed evAllFin p.2)
           "euc"))) = true :=
  C1_nan_recording distSeven evAllFin "euc" true true
    (fun _ _ => ⟨rfl, rfl⟩)

/-- C2: on every successful run, every flagged pair contributes its
diagnostic message to the printed output, and that message contains both
the left and the right structure name as substrings. -/
theorem C2_diagnostic_names_pair (cd : List Val → List Val → String → Val)
    (ev : String → Option (List Val)) (d : String) (sc scb : Bool)
    (res : List (String × Val)) (msgs : List String)
    (h : compute_asymmetry cd ev d sc scb = Except.ok (res, msgs))
    (p : String × String) (hp : p ∈ selectedPairs sc scb)
    (hf : pairFlagged ev p = true) :
    nanMessage p.1 p.2 ∈ msgs ∧
    strContains (nanMessage p.1 p.2) p.1 = true ∧
    strContains (nanMessage p.1 p.2) p.2 = true := by
  obtain ⟨_, hmsgs⟩ := compute_ok_eq cd ev d sc scb res msgs h
  subst hmsgs
  refine ⟨?_, ?_, ?_⟩
  · exact List.mem_map_of_mem _ (List.mem_filter.mpr ⟨hp, hf⟩)
  · unfold nanMessage
    apply strContains_append_right
    apply strContains_append_right
    apply strContains_append_right
    apply strContains_append_left
    exact strContains_self p.1
  · unfold nanMessage
    apply strContains_append_right
    apply strContains_append_left
    exact strContains_self p.2

theorem C2_witness :
    nanMessage "Left-Hippocampus" "Right-Hippocampus" ∈
      [nanMessage "Left-Hippocampus" "Right-Hippocampus"] ∧
    strContains (nanMessage "Left-Hippocampus" "Right-Hippocampus")
      "Left-Hippocampus" = true ∧
    strContains (nanMessage "Left-Hippocampus" "Right-Hippocampus")
      "Right-Hippocampus" = true :=
  C2_diagnostic_names_pair distSeven evNaNHip "euc" true true resNaNHip
    [nanMessage "Left-Hippocampus" "Right-Hippocampus"] (by rfl)
    ("Left-Hippocampus", "Right-Hippocampus") (by decide) (by decide)

/-- C4: when each selected structure's spectrum has length at least 2,
replacing the first two entries of every selected spectrum by arbitrary
finite values leaves the mapping returned by compute_asymmetry
unchanged. -/
theorem C4_trim_invariance (cd : List Val → List Val → String → Val)
    (d : String) (sc scb : Bool) (ev ev2 : String → Option (List Val))
    (h : ∀ p ∈ selectedPairs sc scb, ∀ n, n = p.1 ∨ n = p.2 →
      ∃ xs a b, ev n = some xs ∧ 2 ≤ xs.length ∧
        Val.isFiniteVal a = true ∧ Val.isFiniteVal b = true ∧
        ev2 n = some (a :: b :: xs.drop 2)) :
    compute_asymmetry cd ev2 d sc scb = compute_asymmetry cd ev d sc scb := by
  unfold compute_asymmetry
  apply scoreLoop_congr
  intro p hp
  constructor
  · obtain ⟨xs, a, b, hev, _, _, _, hev2⟩ := h p hp p.1 (Or.inl rfl)
    rw [hev, hev2]
    rfl
  · obtain ⟨xs, a, b, hev, _, _, _, hev2⟩ := h p hp p.2 (Or.inr rfl)
    rw [hev, hev2]
    rfl

theorem C4_witness :
    compute_asymmetry distSeven evShifted "euc" false false =
      compute_asymmetry distSeven evAllFin "euc" false false :=
  C4_trim_invariance distSeven "euc" false false evAllFin evShifted
    (fun _ _ _ _ =>
      ⟨spectrumFin, Val.fin 5, Val.fin 6, rfl, by decide, rfl, rfl, rfl⟩)

/-- C8: if the spectra mapping has no entry for some structure named in a
selected pair, compute_asymmetry fails with a lookup error naming a
missing selected structure; it does not return a result mapping. -/
theorem C8_missing_key_error (cd : List Val → List Val → String → Val)
    (ev : String → Option (List Val)) (d : String) (sc scb : Bool)
    (hmiss : ∃ p ∈ selectedPairs sc scb, ev p.1 = none ∨ ev p.2 = none) :
    ∃ n, (∃ p ∈ selectedPairs sc scb, (p.1 = n ∨ p.2 = n) ∧ ev n = none) ∧
      compute_asymmetry cd ev d sc scb = Except.error n := by
  unfold compute_asymmetry
  exact scoreLoop_missing cd d ev (selectedPairs sc scb) hmiss

theorem C8_witness :
    compute_asymmetry distSeven evMissingStriatum "euc" true true =
      Except.error "Left-Striatum" := by
  obtain ⟨n, ⟨q, hq, hqn, hnone⟩, herr⟩ :=
    C8_missing_key_error distSeven evMissingStriatum "euc" true true
      ⟨("Left-Striatum", "Right-Striatum"), by decide, Or.inl (by rfl)⟩
  have hn : n = "Left-Striatum" := by
    by_cases heq : n = "Left-Striatum"
    · exact heq
    · exfalso
      unfold evMissingStriatum at hnone
      rw [if_neg heq] at hnone
      cases hnone
  rw [hn] at herr
  exact herr

/-- No structure name of any selected pair, under any flag setting, is a
vermis name. -/
theorem selected_no_vermis (sc scb : Bool) :
    ∀ p ∈ selectedPairs sc scb,
      p.1 ∉ vermisNames ∧ p.2 ∉ vermisNames := by
  cases sc <;> cases scb <;> decide

/-- No selected pair key mentions "Vermis", under any flag setting. -/
theorem keys_no_vermis (sc scb : Bool) :
    ((selectedPairs sc scb).all (fun p =>
      !(strContains (pairKey p) "Vermis"))) = true := by
  cases sc <;> cases scb <;> decide

/-- C10: the cerebellar surface catalogue contains the six vermis entries
with their label codes (the aggregate Cbm_Vermis unions the five lobule
codes), yet no selected pair of compute_asymmetry references a vermis
name: no result key ever mentions "Vermis", and the vermis entries of the
spectra mapping are never read — changing the mapping at vermis names
only leaves the result unchanged. -/
theorem C10_vermis_unused :
    (("Cbm_Vermis_VI", ["606"]) ∈ cereb_labels ∧
     ("Cbm_Vermis_VII", ["630"]) ∈ cereb_labels ∧
     ("Cbm_Vermis_VIII", ["631"]) ∈ cereb_labels ∧
     ("Cbm_Vermis_IX", ["624"]) ∈ cereb_labels ∧
     ("Cbm_Vermis_X", ["627"]) ∈ cereb_labels ∧
     ("Cbm_Vermis", ["631", "630", "627", "624", "606"]) ∈ cereb_labels) ∧
    (∀ cd ev d sc scb (res : List (String × Val)) (msgs : List String),
      compute_asymmetry cd ev d sc scb = Except.ok (res, msgs) →
      ((res.map Prod.fst).all (fun k => !(strContains k "Vermis"))) = true) ∧
    (∀ cd d sc scb (ev ev2 : String → Option (List Val)),
      (∀ n, n ∉ vermisNames → ev n = ev2 n) →
      compute_asymmetry cd ev d sc scb = compute_asymmetry cd ev2 d sc scb) := by
  refine ⟨by decide, ?_, ?_⟩
  · intro cd ev d sc scb res msgs h
    obtain ⟨hres, _⟩ := compute_ok_eq cd ev d sc scb res msgs h
    subst hres
    rw [List.map_map, List.all_eq_true]
    intro k hk
    obtain ⟨p, hp, hkey⟩ := List.mem_map.mp hk
    have hall := keys_no_vermis sc scb
    rw [List.all_eq_true] at hall
    have hK := hall p hp
    subst hkey
    exact hK
  · intro cd d sc scb ev ev2 hagree
    unfold compute_asymmetry
    apply scoreLoop_congr
    intro p hp
    obtain ⟨h1, h2⟩ := selected_no_vermis sc scb p hp
    rw [hagree p.1 h1, hagree p.2 h2]
    exact ⟨rfl, rfl⟩

theorem C10_witness :
    ((resultAllSeven false false).map Prod.fst).all
      (fun k => !(strContains k "Vermis")) = true ∧
    compute_asymmetry distSeven evVermisNone "euc" false false =
      compute_asymmetry distSeven evAllFin "euc" false false := by
  constructor
  · exact C10_vermis_unused.2.1 distSeven evAllFin "euc" false false
      (resultAllSeven false false) [] (by rfl)
  · apply C10_vermis_unused.2.2
    intro n hn
    unfold evVermisNone evAllFin
    rw [if_neg]
    intro he
    apply hn
    rw [he]
    decide

/-- C6: when every external command succeeds, create_aseg_surface (and
likewise create_cereb_surface) issues exactly the binarize, conditional
pretess (present if and only if the norm volume exists, its absence not
an error), marching-cubes-at-1 and convert commands, in that strict
order, and returns the final path
destination/surfaces/(source).final.(codes joined by underscores).vtk. -/
theorem C6_extraction_steps (runner isFile : String → Bool)
    (sd dest uid : String) (indices : List String)
    (h : ∀ c, runner c = true) :
    create_aseg_surface runner isFile sd dest uid indices =
      (binarizeCommand (sd ++ "/mri/aseg.mgz") indices
          (dest ++ "/" ++ ("temp/aseg." ++ uid) ++ ".mgz") ::
        ((if isFile (sd ++ "/mri/norm.mgz") then
            [pretessCommand (dest ++ "/" ++ ("temp/aseg." ++ uid) ++ ".mgz")
              (sd ++ "/mri/norm.mgz")]
          else []) ++
         [mcCommand (dest ++ "/" ++ ("temp/aseg." ++ uid) ++ ".mgz")
            (dest ++ "/" ++ ("temp/aseg." ++ uid) ++ ".surf"),
          convertCommand (dest ++ "/" ++ ("temp/aseg." ++ uid) ++ ".surf")
            (dest ++ "/surfaces/aseg.final." ++ String.intercalate "_" indices
              ++ ".vtk")]),
       Except.ok (dest ++ "/surfaces/aseg.final." ++
         String.intercalate "_" indices ++ ".vtk")) ∧
    create_cereb_surface runner isFile sd dest uid indices =
      (binarizeCommand (sd ++ "/mri/cerebellum.CerebNet.nii.gz") indices
          (dest ++ "/" ++ ("temp/cereb." ++ uid) ++ ".mgz") ::
        ((if isFile (sd ++ "/mri/norm.mgz") then
            [pretessCommand (dest ++ "/" ++ ("temp/cereb." ++ uid) ++ ".mgz")
              (sd ++ "/mri/norm.mgz")]
          else []) ++
         [mcCommand (dest ++ "/" ++ ("temp/cereb." ++ uid) ++ ".mgz")
            (dest ++ "/" ++ ("temp/cereb." ++ uid) ++ ".surf"),
          convertCommand (dest ++ "/" ++ ("temp/cereb." ++ uid) ++ ".surf")
            (dest ++ "/surfaces/cereb.final." ++ String.intercalate "_" indices
              ++ ".vtk")]),
       Except.ok (dest ++ "/surfaces/cereb.final." ++
         String.intercalate "_" indices ++ ".vtk")) :=
  ⟨create_aseg_surface_steps runner isFile sd dest uid indices h,
   create_cereb_surface_steps runner isFile sd dest uid indices h⟩

theorem C6_witness :
    create_aseg_surface runnerAll isFileAll "s" "d" "u" ["17"] =
      (binarizeCommand ("s" ++ "/mri/aseg.mgz") ["17"]
          ("d" ++ "/" ++ ("temp/aseg." ++ "u") ++ ".mgz") ::
        ([pretessCommand ("d" ++ "/" ++ ("temp/aseg." ++ "u") ++ ".mgz")
            ("s" ++ "/mri/norm.mgz")] ++
         [mcCommand ("d" ++ "/" ++ ("temp/aseg." ++ "u") ++ ".mgz")
            ("d" ++ "/" ++ ("temp/aseg." ++ "u") ++ ".surf"),
          convertCommand ("d" ++ "/" ++ ("temp/aseg." ++ "u") ++ ".surf")
            ("d" ++ "/surfaces/aseg.final." ++ String.intercalate "_" ["17"]
              ++ ".vtk")]),
       Except.ok ("d" ++ "/surfaces/aseg.final." ++
         String.intercalate "_" ["17"] ++ ".vtk")) ∧
    create_cereb_surface runnerAll isFileNone "s" "d" "u" ["601"] =
      (binarizeCommand ("s" ++ "/mri/cerebellum.CerebNet.nii.gz") ["601"]
          ("d" ++ "/" ++ ("temp/cereb." ++ "u") ++ ".mgz") ::
        ([] ++
         [mcCommand ("d" ++ "/" ++ ("temp/cereb." ++ "u") ++ ".mgz")
            ("d" ++ "/" ++ ("temp/cereb." ++ "u") ++ ".surf"),
          convertCommand ("d" ++ "/" ++ ("temp/cereb." ++ "u") ++ ".surf")
            ("d" ++ "/surfaces/cereb.final." ++ String.intercalate "_" ["601"]
              ++ ".vtk")]),
       Except.ok ("d" ++ "/surfaces/cereb.final." ++
         String.intercalate "_" ["601"] ++ ".vtk")) :=
  ⟨(C6_extraction_steps runnerAll isFileAll "s" "d" "u" ["17"]
      (fun _ => rfl)).1,
   (C6_extraction_steps runnerAll isFileNone "s" "d" "u" ["601"]
      (fun _ => rfl)).2⟩

/-- C7: when one structure's binarize command fails, the batch builders
stop at that command: the aseg batch (and create_surfaces built on it)
issues exactly the commands of the earlier structures followed by the
failing binarize command, issues nothing for later structures and no
dependent step for the failed structure, and returns the error instead of
a partial mapping; likewise for the cerebellar batch. -/
theorem C7_failure_propagation :
    (∀ (runner isFile : String → Bool) (sd dest : String)
       (uids : String → String) (cat1 : List (String × List String))
       (e : String × List String) (cat2 : List (String × List String)),
      aseg_labels = cat1 ++ e :: cat2 →
      (∀ x ∈ cat1, ∃ p, (create_aseg_surface runner isFile sd dest
        (uids x.1) x.2).2 = Except.ok p) →
      runner (binarizeCommand (sd ++ "/mri/aseg.mgz") e.2
        (dest ++ "/" ++ ("temp/aseg." ++ uids e.1) ++ ".mgz")) = false →
      create_aseg_surfaces runner isFile sd dest uids =
        ((cat1.map (fun x => (create_aseg_surface runner isFile sd dest
            (uids x.1) x.2).1)).flatten ++
          [binarizeCommand (sd ++ "/mri/aseg.mgz") e.2
            (dest ++ "/" ++ ("temp/aseg." ++ uids e.1) ++ ".mgz")],
         Except.error (binarizeCommand (sd ++ "/mri/aseg.mgz") e.2
           (dest ++ "/" ++ ("temp/aseg." ++ uids e.1) ++ ".mgz"))) ∧
      ∀ sc scb : Bool, create_surfaces runner isFile sd dest uids sc scb =
        ((cat1.map (fun x => (create_aseg_surface runner isFile sd dest
            (uids x.1) x.2).1)).flatten ++
          [binarizeCommand (sd ++ "/mri/aseg.mgz") e.2
            (dest ++ "/" ++ ("temp/aseg." ++ uids e.1) ++ ".mgz")],
         Except.error (binarizeCommand (sd ++ "/mri/aseg.mgz") e.2
           (dest ++ "/" ++ ("temp/aseg." ++ uids e.1) ++ ".mgz")))) ∧
    (∀ (runner isFile : String → Bool) (sd dest : String)
       (uids : String → String) (cat1 : List (String × List String))
       (e : String × List String) (cat2 : List (String × List String)),
      cereb_labels = cat1 ++ e :: cat2 →
      (∀ x ∈ cat1, ∃ p, (create_cereb_surface runner isFile sd dest
        (uids x.1) x.2).2 = Except.ok p) →
      runner (binarizeCommand (sd ++ "/mri/cerebellum.CerebNet.nii.gz") e.2
        (dest ++ "/" ++ ("temp/cereb." ++ uids e.1) ++ ".mgz")) = false →
      create_cereb_surfaces runner isFile sd dest uids =
        ((cat1.map (fun x => (create_cereb_surface runner isFile sd dest
            (uids x.1) x.2).1)).flatten ++
          [binarizeCommand (sd ++ "/mri/cerebellum.CerebNet.nii.gz") e.2
            (dest ++ "/" ++ ("temp/cereb." ++ uids e.1) ++ ".mgz")],
         Except.error (binarizeCommand (sd ++ "/mri/cerebellum.CerebNet.nii.gz")
           e.2 (dest ++ "/" ++ ("temp/cereb." ++ uids e.1) ++ ".mgz")))) := by
  constructor
  · intro runner isFile sd dest uids cat1 e cat2 hcat hok hrun
    have hfailed := create_aseg_surface_binarize_fail runner isFile sd dest
      (uids e.1) e.2 hrun
    have herr : (create_aseg_surface runner isFile sd dest (uids e.1) e.2).2 =
        Except.error (binarizeCommand (sd ++ "/mri/aseg.mgz") e.2
          (dest ++ "/" ++ ("temp/aseg." ++ uids e.1) ++ ".mgz")) := by
      rw [hfailed]
    have htrace : (create_aseg_surface runner isFile sd dest (uids e.1) e.2).1 =
        [binarizeCommand (sd ++ "/mri/aseg.mgz") e.2
          (dest ++ "/" ++ ("temp/aseg." ++ uids e.1) ++ ".mgz")] := by
      rw [hfailed]
    have hbatch : create_aseg_surfaces runner isFile sd dest uids =
        ((cat1.map (fun x => (create_aseg_surface runner isFile sd dest
            (uids x.1) x.2).1)).flatten ++
          [binarizeCommand (sd ++ "/mri/aseg.mgz") e.2
            (dest ++ "/" ++ ("temp/aseg." ++ uids e.1) ++ ".mgz")],
         Except.error (binarizeCommand (sd ++ "/mri/aseg.mgz") e.2
           (dest ++ "/" ++ ("temp/aseg." ++ uids e.1) ++ ".mgz"))) := by
      unfold create_aseg_surfaces
      rw [hcat]
      rw [batchLoop_error _ cat1 e cat2 _ hok herr]
      rw [htrace]
    refine ⟨hbatch, ?_⟩
    intro sc scb
    unfold create_surfaces
    rw [hbatch]
    rfl
  · intro runner isFile sd dest uids cat1 e cat2 hcat hok hrun
    have hfailed := create_cereb_surface_binarize_fail runner isFile sd dest
      (uids e.1) e.2 hrun
    have herr : (create_cereb_surface runner isFile sd dest (uids e.1) e.2).2 =
        Except.error (binarizeCommand (sd ++ "/mri/cerebellum.CerebNet.nii.gz")
          e.2 (dest ++ "/" ++ ("temp/cereb." ++ uids e.1) ++ ".mgz")) := by
      rw [hfailed]
    have htrace : (create_cereb_surface runner isFile sd dest
        (uids e.1) e.2).1 =
        [binarizeCommand (sd ++ "/mri/cerebellum.CerebNet.nii.gz") e.2
          (dest ++ "/" ++ ("temp/cereb." ++ uids e.1) ++ ".mgz")] := by
      rw [hfailed]
    unfold create_cereb_surfaces
    rw [hcat]
    rw [batchLoop_error _ cat1 e cat2 _ hok herr]
    rw [htrace]

theorem C7_witness :
    create_aseg_surfaces runnerFailAseg isFileAll "s" "d" uidsConst =
      ([asegFailBinCmd], Except.error asegFailBinCmd) ∧
    create_surfaces runnerFailAseg isFileAll "s" "d" uidsConst false false =
      ([asegFailBinCmd], Except.error asegFailBinCmd) ∧
    create_cereb_surfaces runnerFailCereb isFileAll "s" "d" uidsConst =
      ([cerebFailBinCmd], Except.error cerebFailBinCmd) := by
  have haseg := C7_failure_propagation.1 runnerFailAseg isFileAll "s" "d"
    uidsConst [] ("CorpusCallosum", ["251", "252", "253", "254", "255"])
    (aseg_labels.drop 1) (by decide)
    (fun x hx => absurd hx (List.not_mem_nil x)) (by decide)
  have hcereb := C7_failure_propagation.2 runnerFailCereb isFileAll "s" "d"
    uidsConst [] ("Cbm_Left_I_IV", ["601"]) (cereb_labels.drop 1) (by decide)
    (fun x hx => absurd hx (List.not_mem_nil x)) (by decide)
  exact ⟨haseg.1, haseg.2 false false, hcereb⟩

end BrainPrint
